import Mathlib

/-!
Shallow embedding of the TransitIQ traffic-analysis scripts and proofs about
their lane-assignment, count-aggregation and serial-telemetry behaviour.

Sources embedded:
- src/ai_processing/traffic_markers.py   (ArUco-polygon lane strategy)
- src/ai_processing/traffic_masking.py   (color-mask lane strategy, checksummed packet)
- src/ai_processing/traffic_processor.py (static quadrant strategy, text line sender)
- src/traffic.py                         (corner-region strategy)

External collaborators (the YOLO detector, the ArUco detector, OpenCV image
decoding, the pyserial transport) are modelled as inputs: the detector output,
the marker list and the serial environment are parameters of the embedded
functions.
-/

namespace TransitIQ

/-- The four directional lanes.  All four scripts key their count dictionaries
by exactly these four lanes (as the strings "North"/"South"/"East"/"West" or
the characters N/S/E/W); the enumeration replaces those string keys. -/
inductive Lane : Type
  | north
  | south
  | east
  | west
deriving DecidableEq, Repr

/-- Canonical lane order: the (insertion) iteration order of the Python dicts
lane_markers, lane_colors, counts and car_counts, which is North, South,
East, West in every script. -/
def laneOrder : List Lane := [.north, .south, .east, .west]

/-- A count record or any other lane-keyed Python dict is embedded as an
association list in insertion order (Python dicts iterate in insertion
order); all dicts built by the scripts have pairwise distinct keys. -/
def dictGet {α : Type} : List (Lane × α) → Lane → Option α
  | [], _ => none
  | (k, v) :: rest, k' => if k = k' then some v else dictGet rest k'

/-- Embeds the Python statement d[k] += 1 on an int-valued dict whose keys
are distinct (it rewrites the value at every entry with key k). -/
def dictIncr (d : List (Lane × Int)) (k : Lane) : List (Lane × Int) :=
  d.map (fun p => if p.1 = k then (p.1, p.2 + 1) else p)

/-- The zero-initialised count dict, lane_counts = 0 for each lane,
built by every counting routine before its main loop. -/
def initCounts : List (Lane × Int) := laneOrder.map (fun l => (l, 0))

/-- An integer pixel point (x, y). -/
structure Pt : Type where
  x : Int
  y : Int
deriving DecidableEq, Repr

/-- Loop body of the OpenCV pointPolygonTest crossing counter (integer
contour, measureDist = false, integral query point), iterating over the
vertices with v0 the previous vertex; returns none when the point is found
on the boundary (the C++ code returns 0 there) and otherwise the final
crossing counter. -/
def pptLoop (p : Pt) : List Pt → Pt → Nat → Option Nat
  | [], _, counter => some counter
  | v :: rest, v0, counter =>
    if (v0.y ≤ p.y ∧ v.y ≤ p.y) ∨ (p.y < v0.y ∧ p.y < v.y) ∨ (v0.x < p.x ∧ v.x < p.x) then
      if p.y = v.y ∧ (p.x = v.x ∨ (p.y = v0.y ∧
          ((v0.x ≤ p.x ∧ p.x ≤ v.x) ∨ (v.x ≤ p.x ∧ p.x ≤ v0.x)))) then
        none
      else
        pptLoop p rest v counter
    else
      let dist : Int := (p.y - v0.y) * (v.x - v0.x) - (p.x - v0.x) * (v.y - v0.y)
      if dist = 0 then
        none
      else
        let dist' : Int := if v.y < v0.y then -dist else dist
        pptLoop p rest v (if 0 < dist' then counter + 1 else counter)

/-- Embedding of cv2.pointPolygonTest(polygon, point, False) for an np.int32
polygon and an integer-valued point: +1 inside, 0 on an edge or vertex,
-1 outside (odd/even crossing count).  The scripts only compare the result
with 0, so the sign convention is all that matters. -/
def pointPolygonTest (poly : List Pt) (p : Pt) : Int :=
  match poly.getLast? with
  | none => -1
  | some vlast =>
    match pptLoop p poly vlast 0 with
    | none => 0
    | some counter => if counter % 2 = 0 then -1 else 1

theorem pointPolygonTest_inside :
    pointPolygonTest [⟨0, 0⟩, ⟨10, 0⟩, ⟨0, 10⟩] ⟨2, 2⟩ = 1 := by decide

theorem pointPolygonTest_outside :
    pointPolygonTest [⟨0, 0⟩, ⟨10, 0⟩, ⟨0, 10⟩] ⟨20, 20⟩ = -1 := by decide

theorem pointPolygonTest_on_edge :
    pointPolygonTest [⟨0, 0⟩, ⟨10, 0⟩, ⟨0, 10⟩] ⟨5, 0⟩ = 0 := by decide

/-! ## traffic_markers.py : ArUco-polygon lane strategy -/

/-- One detected ArUco marker as returned by the external detector: its
numeric id together with its corner points (four corners for real markers;
corner coordinates are floats, embedded as rationals).  The detector returns
the corners and ids as two aligned arrays; the embedding pairs them up. -/
structure Marker : Type where
  id : Int
  corners : List (Rat × Rat)
deriving DecidableEq, Repr

/-- Mean of a list of 2-d points, np.mean(marker_corners, axis = 0). -/
def meanCorner (cs : List (Rat × Rat)) : Rat × Rat :=
  ((cs.map Prod.fst).sum / (cs.length : Rat), (cs.map Prod.snd).sum / (cs.length : Rat))

/-- Conversion of a float coordinate to np.int32, which truncates toward
zero. -/
def ratTrunc (q : Rat) : Int := q.num.tdiv (q.den : Int)

/-- The lane_markers dict of LaneAnalyzer: the marker ids whose centers are
the corners of each lane polygon. -/
def laneMarkers : Lane → List Int
  | .north => [0, 1, 2, 3]
  | .south => [4, 5, 6, 7]
  | .east => [8, 9, 10, 11]
  | .west => [12, 13, 14, 15]

/-- The inner loop of create_lane_polygons for one lane: for each of the
lane's marker ids, np.where(ids == marker_id)[0] finds the first detected
marker with that id (if any), and the mean of its corners, cast to np.int32,
is appended to lane_corners.  Ids that resolve to no detected marker
contribute nothing. -/
def laneCorners (markers : List Marker) (l : Lane) : List Pt :=
  (laneMarkers l).filterMap (fun mid =>
    (markers.find? (fun m => m.id == mid)).map (fun m =>
      let c := meanCorner m.corners
      ⟨ratTrunc c.1, ratTrunc c.2⟩))

/-- LaneAnalyzer.create_lane_polygons: builds the lane_polygons dict, adding
lane -> np.array(lane_corners, np.int32) exactly when len(lane_corners) >= 3,
iterating the lanes in lane_markers insertion order. -/
def create_lane_polygons (markers : List Marker) : List (Lane × List Pt) :=
  laneOrder.filterMap (fun l =>
    let cs := laneCorners markers l
    if 3 ≤ cs.length then some (l, cs) else none)

/-- LaneAnalyzer.detect_markers: the external ArUco detector returns
(corners, ids) with ids = None when no marker was found; the method raises
ValueError exactly in that case and otherwise returns the detections.
The detector output is the parameter (none embeds ids is None). -/
def detect_markers (detected : Option (List Marker)) : Except String (List Marker) :=
  match detected with
  | none => .error "No markers detected in the image"
  | some ms => .ok ms

/-- LaneAnalyzer.count_cars of traffic_markers.py: detect markers, build the
lane polygons, then for every car center increment the count of every lane
whose polygon contains it (pointPolygonTest >= 0); the loop over
lane_polygons.items() has no break.  Returns (lane_counts, lane_polygons). -/
def count_cars_markers (centers : List Pt) (detected : Option (List Marker)) :
    Except String (List (Lane × Int) × List (Lane × List Pt)) := do
  let markers ← detect_markers detected
  let lane_polygons := create_lane_polygons markers
  let lane_counts := centers.foldl (fun d c =>
    lane_polygons.foldl (fun d' lp =>
      if 0 ≤ pointPolygonTest lp.2 c then dictIncr d' lp.1 else d') d) initCounts
  return (lane_counts, lane_polygons)

/-- The center computation of TrafficAnalyzerApp.run in traffic_markers.py:
centers.append((x + w_box//2, y + h_box//2)) for each kept box, with no
clamping to the frame bounds (Python // is floor division). -/
def run_centers_markers (boxes : List (Int × Int × Int × Int)) : List Pt :=
  boxes.map (fun b => ⟨b.1 + b.2.2.1.fdiv 2, b.2.1 + b.2.2.2.fdiv 2⟩)

/-! ## traffic_masking.py : color-mask lane strategy and checksummed packet -/

/-- A BGR pixel value, integer channels (np.uint8 values 0..255 in the real
mask; the embedding carries them as integers, which is exact because numpy
promotes the uint8 pixel and the python int color tuple to a wide integer
type before subtracting). -/
abbrev Color : Type := Int × Int × Int

/-- The color mask image: a rectangular grid of pixels, row-major as numpy
indexes it (mask[y, x]); width is the common row length and the height is
the number of rows, mirroring h, w = mask.shape[:2]. -/
structure Mask : Type where
  width : Nat
  rows : List (List Color)
  rect : ∀ r ∈ rows, r.length = width

/-- Embeds np.clip(x, lo, hi) on integers (equivalent to
np.minimum(hi, np.maximum(x, lo))). -/
def clip (x lo hi : Int) : Int := min (max x lo) hi

/-- Pixel access mask[cy, cx]; the indices produced by count_cars are
clamped to [0, h-1] and [0, w-1] and hence non-negative, so the embedding
uses plain (non-wrapping) list indexing, with none embedding the numpy
IndexError on an out-of-range access. -/
def maskPixel (m : Mask) (cy cx : Int) : Option Color :=
  (m.rows.get? cy.toNat).bind (fun row => row.get? cx.toNat)

/-- The lane_colors dict of TrafficAnalyzerApp in traffic_masking.py, in
insertion order (BGR tuples). -/
def laneColors : List (Lane × Color) :=
  [(.north, (255, 0, 0)), (.south, (0, 255, 0)), (.east, (0, 0, 255)), (.west, (255, 255, 0))]

/-- Squared Euclidean distance between two BGR colors.  The source compares
np.linalg.norm(mask_color - color) (an exact nonnegative square root of an
integer) against the integer tolerance and against previously seen norms;
each such comparison holds exactly when the corresponding comparison of the
squared distance against the squared bound does, so the embedding carries
squared distances throughout. -/
def distSq (a b : Color) : Int :=
  (a.1 - b.1) ^ 2 + (a.2.1 - b.2.1) ^ 2 + (a.2.2 - b.2.2) ^ 2

/-- One iteration of the best-match loop of LaneAnalyzer.count_cars in
traffic_masking.py: the accumulator is (best_match, min_dist), none standing
for (None, inf); a lane replaces it when dist < min_dist and
dist <= tolerance (squared on both sides in the embedding). -/
def bestStep (pix : Color) (tolSq : Int) (acc : Option (Lane × Int)) (lc : Lane × Color) :
    Option (Lane × Int) :=
  let d := distSq pix lc.2
  match acc with
  | none => if d ≤ tolSq then some (lc.1, d) else none
  | some (bl, bd) => if d < bd ∧ d ≤ tolSq then some (lc.1, d) else some (bl, bd)

/-- The best-match selection for one mask pixel: fold of bestStep over
lane_colors in iteration order; returns the assigned lane or none. -/
def best_match (pix : Color) (tolSq : Int) : Option Lane :=
  (laneColors.foldl (bestStep pix tolSq) none).map Prod.fst

/-- LaneAnalyzer.count_cars of traffic_masking.py: for each center, clamp
cx into [0, w-1] and cy into [0, h-1], read the mask pixel there, pick the
best matching lane color within tolerance, and increment that lane (if any).
The tolerance parameter is carried squared (tolSq = tolerance^2, default
tolerance 20).  A failed pixel access (impossible for a non-empty mask, as
proved below) embeds as an error. -/
def count_cars_masking (m : Mask) (tolSq : Int) (centers : List Pt) :
    Except String (List (Lane × Int)) :=
  centers.foldlM (fun d c => do
    let cx := clip c.x 0 ((m.width : Int) - 1)
    let cy := clip c.y 0 ((m.rows.length : Int) - 1)
    match maskPixel m cy cx with
    | none => .error "IndexError"
    | some pix =>
      match best_match pix tolSq with
      | some l => pure (dictIncr d l)
      | none => pure d) initCounts

/-- Whether opening the serial port and writing to it succeed; stands for
the externally-determined behaviour of the pyserial transport inside the
try block of a sender. -/
structure SerialEnv : Type where
  openOk : Bool
  writeOk : Bool

/-- The caller-observable outcome of one call to
TrafficAnalyzerApp.send_serial_data: which bytes were written to the port
(none when no complete write happened), whether the except-branch printed a
serial communication error, how many write calls were attempted, and
whether an exception escaped to the caller (the Python function returns
None in every case, so an escaping exception is the only possible explicit
failure signal to the caller). -/
structure SendEffects : Type where
  written : Option (List Nat)
  errorPrinted : Option String
  writeAttempts : Nat
  raised : Bool
deriving DecidableEq, Repr

/-- Little-endian 16-bit encoding of one in-range count, as laid down by
struct.pack of an unsigned short. -/
def le16 (n : Int) : List Nat := [n.toNat % 256, n.toNat / 256 % 256]

/-- Embeds struct.pack of four little-endian unsigned shorts, which raises
struct.error unless every value fits in 0..65535. -/
def pack4H (a b c d : Int) : Except String (List Nat) :=
  if 0 ≤ a ∧ a < 65536 ∧ 0 ≤ b ∧ b < 65536 ∧ 0 ≤ c ∧ c < 65536 ∧ 0 ≤ d ∧ d < 65536 then
    .ok (le16 a ++ le16 b ++ le16 c ++ le16 d)
  else
    .error "struct.error"

/-- TrafficAnalyzerApp.send_serial_data of traffic_masking.py.  Inside one
try block: fetch the four counts with dict.get(lane, 0), pack them as four
little-endian unsigned shorts, compute the checksum as the XOR of the start
byte 0xAA and every data byte, build the packet start + data + checksum,
open the port and write the packet once.  Any exception (struct.error, a
failed open, a failed write) lands in the except branch, which prints the
error and returns normally; no retry, nothing raised to the caller. -/
def send_serial_data (env : SerialEnv) (lane_counts : List (Lane × Int)) : SendEffects :=
  let north := (dictGet lane_counts .north).getD 0
  let south := (dictGet lane_counts .south).getD 0
  let east := (dictGet lane_counts .east).getD 0
  let west := (dictGet lane_counts .west).getD 0
  match pack4H north south east west with
  | .error e => { written := none, errorPrinted := some e, writeAttempts := 0, raised := false }
  | .ok data =>
    let checksum := data.foldl Nat.xor 0xAA
    let packet := 0xAA :: (data ++ [checksum])
    if env.openOk then
      if env.writeOk then
        { written := some packet, errorPrinted := none, writeAttempts := 1, raised := false }
      else
        { written := none, errorPrinted := some "write failed", writeAttempts := 1, raised := false }
    else
      { written := none, errorPrinted := some "could not open port", writeAttempts := 0, raised := false }

/-! ## traffic_processor.py : static quadrant strategy and text line sender -/

/-- One detection box of results.boxes.xyxy: corner coordinates as floats,
embedded as rationals. -/
structure PBox : Type where
  x1 : Rat
  y1 : Rat
  x2 : Rat
  y2 : Rat
deriving DecidableEq, Repr

/-- The lane decision of TrafficProcessor.process_frame for one centroid:
x_center < 320 selects the left half (W above y 240, N below threshold
flipped: y_center < 240 gives W, otherwise N), x_center >= 320 the right
half (E for y_center < 240, otherwise S).  The thresholds are the fixed
constants 320 and 240 regardless of the actual frame size. -/
def processor_lane (x y : Rat) : Lane :=
  if x < 320 then
    (if y < 240 then .west else .north)
  else
    (if y < 240 then .east else .south)

/-- TrafficProcessor.process_frame counting loop: counts = zeros for
N, S, E, W, then every box (no class filter) increments the lane of its
centroid ((x1+x2)/2, (y1+y2)/2). -/
def process_frame (boxes : List PBox) : List (Lane × Int) :=
  boxes.foldl (fun d b =>
    dictIncr d (processor_lane ((b.x1 + b.x2) / 2) ((b.y1 + b.y2) / 2))) initCounts

/-- TrafficProcessor.send_counts: builds the text payload
"N,S,E,W\n" from the four dict entries (a missing key would raise KeyError)
and writes it; there is no try block, so a failed write raises to the
caller, embedded as an error result. -/
def send_counts (env : SerialEnv) (counts : List (Lane × Int)) : Except String String :=
  match dictGet counts .north, dictGet counts .south,
      dictGet counts .east, dictGet counts .west with
  | some n, some s, some e, some w =>
    let payload := toString n ++ "," ++ toString s ++ "," ++ toString e ++ "," ++ toString w ++ "\n"
    if env.writeOk then .ok payload else .error "serial write failed"
  | _, _, _, _ => .error "KeyError"

/-- One iteration of the while-loop of TrafficProcessor.run: a failed
camera read makes process_frame return None and the iteration sends
nothing; otherwise the counts are sent, and an exception from send_counts
propagates (the loop catches only KeyboardInterrupt). -/
def run_frame (env : SerialEnv) (frame : Option (List PBox)) : Except String (Option String) :=
  match frame with
  | none => .ok none
  | some boxes => (send_counts env (process_frame boxes)).map some

/-- The while-loop of TrafficProcessor.run over a schedule of camera
frames: payloads accumulate in order; the first exception aborts the loop
(and the remaining frames) because run catches only KeyboardInterrupt. -/
def run_loop (env : SerialEnv) (frames : List (Option (List PBox))) :
    Except String (List String) :=
  frames.foldlM (fun acc f => (run_frame env f).map (fun o => acc ++ o.toList)) []

/-! ## traffic.py : corner-region strategy -/

/-- One row of results.boxes.data after map(int, [x1, y1, x2, y2]) and
int(cls): integer box corners and class id. -/
structure TDet : Type where
  x1 : Int
  y1 : Int
  x2 : Int
  y2 : Int
  cls : Int
deriving DecidableEq, Repr

/-- The regions dict of count_cars_in_regions, in insertion order: each
lane maps to the two opposite corners of an axis-aligned rectangle,
computed from the image width and height with Python floor division
(North the top-right corner box, South bottom-left, East bottom-right,
West top-left). -/
def regions (width height : Nat) : List (Lane × (Pt × Pt)) :=
  [ (.north, (⟨(width : Int) - (width / 4 : Nat), 0⟩, ⟨(width : Int), ((height / 4 : Nat) : Int)⟩)),
    (.south, (⟨0, (height : Int) - (height / 4 : Nat)⟩, ⟨((width / 4 : Nat) : Int), (height : Int)⟩)),
    (.east, (⟨(width : Int) - (width / 4 : Nat), (height : Int) - (height / 4 : Nat)⟩,
      ⟨(width : Int), (height : Int)⟩)),
    (.west, (⟨0, 0⟩, ⟨((width / 4 : Nat) : Int), ((height / 4 : Nat) : Int)⟩)) ]

/-- The counting loop of count_cars_in_regions in traffic.py: for every
detection, the centroid ((x1+x2)//2, (y1+y2)//2) is tested against every
region (inclusive bounds on all four sides) and, when the class id is one
of 2, 3, 5, 7 (car, motorcycle, bus, truck), every containing region's
count is incremented (again no break in the region loop). -/
def count_cars_in_regions (width height : Nat) (dets : List TDet) : List (Lane × Int) :=
  dets.foldl (fun d det =>
    let cx := (det.x1 + det.x2).fdiv 2
    let cy := (det.y1 + det.y2).fdiv 2
    (regions width height).foldl (fun d' r =>
      if r.2.1.x ≤ cx ∧ cx ≤ r.2.2.x ∧ r.2.1.y ≤ cy ∧ cy ≤ r.2.2.y ∧
          det.cls ∈ ([2, 3, 5, 7] : List Int) then
        dictIncr d' r.1
      else d') d) initCounts

/-! ## Helper lemmas about the dict embedding and the counting folds -/

theorem dictIncr_cons (pk : Lane) (pv : Int) (rest : List (Lane × Int)) (k : Lane) :
    dictIncr ((pk, pv) :: rest) k =
      (if pk = k then (pk, pv + 1) else (pk, pv)) :: dictIncr rest k := by
  simp only [dictIncr, List.map_cons]

theorem dictGet_dictIncr_self (d : List (Lane × Int)) (k : Lane) :
    dictGet (dictIncr d k) k = (dictGet d k).map (fun v => v + 1) := by
  induction d with
  | nil => rfl
  | cons p rest ih =>
    obtain ⟨pk, pv⟩ := p
    rw [dictIncr_cons]
    by_cases hpk : pk = k
    · rw [if_pos hpk]
      simp [dictGet, hpk]
    · rw [if_neg hpk]
      simp [dictGet, hpk, ih]

theorem dictGet_dictIncr_ne (d : List (Lane × Int)) (k k' : Lane) (h : k' ≠ k) :
    dictGet (dictIncr d k) k' = dictGet d k' := by
  induction d with
  | nil => rfl
  | cons p rest ih =>
    obtain ⟨pk, pv⟩ := p
    rw [dictIncr_cons]
    by_cases hpk : pk = k
    · rw [if_pos hpk]
      have hpk' : pk ≠ k' := fun he => h (he.symm.trans hpk)
      simp [dictGet, hpk', ih]
    · rw [if_neg hpk]
      by_cases hpk' : pk = k'
      · simp [dictGet, hpk']
      · simp [dictGet, hpk', ih]

theorem dictGet_dictIncr (d : List (Lane × Int)) (k k' : Lane) :
    dictGet (dictIncr d k) k' =
      if k' = k then (dictGet d k').map (fun v => v + 1) else dictGet d k' := by
  by_cases h : k' = k
  · subst h
    simp [dictGet_dictIncr_self]
  · simp [h, dictGet_dictIncr_ne d k k' h]

theorem dictGet_initCounts (k : Lane) : dictGet initCounts k = some 0 := by
  cases k <;> rfl

theorem dictGet_eq_none_iff {β : Type} (entries : List (Lane × β)) (k : Lane) :
    dictGet entries k = none ↔ k ∉ entries.map Prod.fst := by
  induction entries with
  | nil => simp [dictGet]
  | cons p rest ih =>
    obtain ⟨pk, pv⟩ := p
    by_cases hpk : pk = k <;> simp [dictGet, hpk, ih] <;> tauto

theorem countP_eq_zero_of_not_mem_keys {β : Type} (entries : List (Lane × β)) (k : Lane)
    (cond : Lane × β → Bool) (h : k ∉ entries.map Prod.fst) :
    entries.countP (fun lp => decide (lp.1 = k) && cond lp) = 0 := by
  induction entries with
  | nil => rfl
  | cons p rest ih =>
    simp only [List.map_cons, List.mem_cons, not_or] at h
    rw [List.countP_cons, ih h.2]
    simp [show p.1 ≠ k from fun hk => h.1 hk.symm]

/-- With pairwise distinct keys, counting the entries at key k satisfying a
condition reduces to testing the (unique) value at k. -/
theorem countP_entries_of_nodup {β : Type} (entries : List (Lane × β))
    (hnd : (entries.map Prod.fst).Nodup) (k : Lane) (cond : Lane × β → Bool) :
    entries.countP (fun lp => decide (lp.1 = k) && cond lp) =
      (match dictGet entries k with
        | some v => if cond (k, v) then 1 else 0
        | none => 0) := by
  induction entries with
  | nil => rfl
  | cons p rest ih =>
    obtain ⟨pk, pv⟩ := p
    simp only [List.map_cons, List.nodup_cons] at hnd
    rw [List.countP_cons]
    by_cases hpk : pk = k
    · subst hpk
      rw [countP_eq_zero_of_not_mem_keys rest pk cond hnd.1]
      simp [dictGet]
    · simp only [dictGet, if_neg hpk, ih hnd.2]
      simp [hpk]

/-- Folding a conditional per-entry increment over an entry list adds, at
each key, the number of entries with that key satisfying the condition. -/
theorem dictGet_foldl_incrIf {β : Type} (cond : Lane × β → Prop) [DecidablePred cond]
    (entries : List (Lane × β)) (d : List (Lane × Int)) (k : Lane) :
    dictGet (entries.foldl (fun d' lp => if cond lp then dictIncr d' lp.1 else d') d) k =
      (dictGet d k).map
        (fun v => v + (entries.countP (fun lp => decide (lp.1 = k) && decide (cond lp)) : Int)) := by
  induction entries generalizing d with
  | nil => cases h : dictGet d k <;> simp [h]
  | cons e rest ih =>
    rw [List.foldl_cons, List.countP_cons]
    by_cases hc : cond e
    · by_cases hk : e.1 = k
      · rw [if_pos hc, ih, dictGet_dictIncr]
        cases h : dictGet d k <;> simp [h, hk, hc] <;> push_cast <;> ring
      · rw [if_pos hc, ih, dictGet_dictIncr]
        cases h : dictGet d k <;> simp [h, hk, Ne.symm hk, hc]
    · rw [if_neg hc, ih]
      cases h : dictGet d k <;> simp [h, hc]

/-- Folding a per-element step whose effect at key k is adding a weight
accumulates the total weight. -/
theorem dictGet_foldl_step {α : Type} (step : List (Lane × Int) → α → List (Lane × Int))
    (w : α → Nat) (k : Lane)
    (hstep : ∀ d c, dictGet (step d c) k = (dictGet d k).map (fun v => v + (w c : Int)))
    (elems : List α) (d : List (Lane × Int)) :
    dictGet (elems.foldl step d) k =
      (dictGet d k).map (fun v => v + ((elems.map w).sum : Int)) := by
  induction elems generalizing d with
  | nil => cases h : dictGet d k <;> simp [h]
  | cons c rest ih =>
    rw [List.foldl_cons, ih, hstep]
    cases h : dictGet d k <;> simp [h] <;> push_cast <;> ring

theorem sum_map_indicator_eq_countP {α : Type} (p : α → Prop) [DecidablePred p] (l : List α) :
    (l.map (fun c => if p c then (1 : Nat) else 0)).sum = l.countP (fun c => decide (p c)) := by
  induction l with
  | nil => rfl
  | cons c r ih => by_cases h : p c <;> simp [List.countP_cons, h, ih] <;> omega

/-! ## Characterizations of the four counting routines -/

theorem map_fst_filterMap_if {β : Type} (g : Lane → β) (p : Lane → Prop) [DecidablePred p]
    (xs : List Lane) :
    ((xs.filterMap (fun l => if p l then some (l, g l) else none)).map Prod.fst) =
      xs.filter (fun l => decide (p l)) := by
  induction xs with
  | nil => rfl
  | cons x r ih =>
    by_cases h : p x <;> simp [List.filterMap_cons, List.filter_cons, h, ih]

theorem create_lane_polygons_keys (ms : List Marker) :
    (create_lane_polygons ms).map Prod.fst =
      laneOrder.filter (fun l => decide (3 ≤ (laneCorners ms l).length)) :=
  map_fst_filterMap_if (fun l => laneCorners ms l) (fun l => 3 ≤ (laneCorners ms l).length)
    laneOrder

theorem create_lane_polygons_keys_nodup (ms : List Marker) :
    ((create_lane_polygons ms).map Prod.fst).Nodup := by
  rw [create_lane_polygons_keys]
  exact List.Nodup.filter _ (by decide)

/-- The effective assignment test of the polygon strategy: lane k has a car
at centroid c when k got a polygon this frame and the polygon contains c. -/
def laneHasCar (polys : List (Lane × List Pt)) (k : Lane) (c : Pt) : Bool :=
  match dictGet polys k with
  | some poly => decide (0 ≤ pointPolygonTest poly c)
  | none => false

theorem count_cars_markers_ok (centers : List Pt) (ms : List Marker) :
    count_cars_markers centers (some ms) =
      .ok (centers.foldl (fun d c =>
          (create_lane_polygons ms).foldl (fun d' lp =>
            if 0 ≤ pointPolygonTest lp.2 c then dictIncr d' lp.1 else d') d) initCounts,
        create_lane_polygons ms) := rfl

/-- Count characterization of the polygon strategy: each lane's final count
is the number of centroids whose laneHasCar test holds for that lane. -/
theorem markers_dictGet (centers : List Pt) (ms : List Marker) (k : Lane) :
    dictGet (centers.foldl (fun d c =>
        (create_lane_polygons ms).foldl (fun d' lp =>
          if 0 ≤ pointPolygonTest lp.2 c then dictIncr d' lp.1 else d') d) initCounts) k =
      some ((centers.countP (laneHasCar (create_lane_polygons ms) k) : Nat) : Int) := by
  rw [dictGet_foldl_step (w := fun c => if laneHasCar (create_lane_polygons ms) k c then 1 else 0)
    (k := k)]
  · rw [dictGet_initCounts, sum_map_indicator_eq_countP]
    simp
  · intro d c
    rw [dictGet_foldl_incrIf (fun lp => 0 ≤ pointPolygonTest lp.2 c) (create_lane_polygons ms) d k,
      countP_entries_of_nodup _ (create_lane_polygons_keys_nodup ms) k]
    unfold laneHasCar
    cases hdg : dictGet (create_lane_polygons ms) k <;>
      cases hd : dictGet d k <;> simp [hdg, hd]

theorem clip_mem (x lo hi : Int) (h : lo ≤ hi) : lo ≤ clip x lo hi ∧ clip x lo hi ≤ hi := by
  unfold clip
  constructor
  · exact le_min (le_max_right x lo) h
  · exact min_le_right _ _

/-- For a non-empty rectangular mask, the pixel access of count_cars at the
clamped coordinates always succeeds. -/
theorem maskPixel_clip_some (m : Mask) (hh : 0 < m.rows.length) (hw : 0 < m.width)
    (cx cy : Int) :
    ∃ pix, maskPixel m (clip cy 0 ((m.rows.length : Int) - 1))
      (clip cx 0 ((m.width : Int) - 1)) = some pix := by
  obtain ⟨hy0, hy1⟩ := clip_mem cy 0 ((m.rows.length : Int) - 1) (by omega)
  obtain ⟨hx0, hx1⟩ := clip_mem cx 0 ((m.width : Int) - 1) (by omega)
  set iy := clip cy 0 ((m.rows.length : Int) - 1)
  set ix := clip cx 0 ((m.width : Int) - 1)
  have hyn : iy.toNat < m.rows.length := by omega
  have row := m.rows.get ⟨iy.toNat, hyn⟩
  have hrow : m.rows.get? iy.toNat = some (m.rows.get ⟨iy.toNat, hyn⟩) := List.get?_eq_get hyn
  have hlen : (m.rows.get ⟨iy.toNat, hyn⟩).length = m.width :=
    m.rect _ (List.get_mem m.rows iy.toNat hyn)
  have hxn : ix.toNat < (m.rows.get ⟨iy.toNat, hyn⟩).length := by omega
  refine ⟨(m.rows.get ⟨iy.toNat, hyn⟩).get ⟨ix.toNat, hxn⟩, ?_⟩
  unfold maskPixel
  rw [hrow]
  simpa using List.get?_eq_get hxn

/-- The effective assignment of the color-mask strategy for one centroid:
the best-matching lane color at the clamped mask pixel. -/
def maskAssign (m : Mask) (tolSq : Int) (c : Pt) : Option Lane :=
  match maskPixel m (clip c.y 0 ((m.rows.length : Int) - 1))
      (clip c.x 0 ((m.width : Int) - 1)) with
  | some pix => best_match pix tolSq
  | none => none

theorem count_cars_masking_ok_aux (m : Mask) (tolSq : Int)
    (hh : 0 < m.rows.length) (hw : 0 < m.width) (centers : List Pt)
    (d : List (Lane × Int)) :
    (centers.foldlM (fun d c => do
        let cx := clip c.x 0 ((m.width : Int) - 1)
        let cy := clip c.y 0 ((m.rows.length : Int) - 1)
        match maskPixel m cy cx with
        | none => .error "IndexError"
        | some pix =>
          match best_match pix tolSq with
          | some l => pure (dictIncr d l)
          | none => pure d) d : Except String (List (Lane × Int))) =
      .ok (centers.foldl (fun d c =>
        match maskAssign m tolSq c with
        | some l => dictIncr d l
        | none => d) d) := by
  induction centers generalizing d with
  | nil => rfl
  | cons c rest ih =>
    obtain ⟨pix, hpix⟩ := maskPixel_clip_some m hh hw c.x c.y
    rw [List.foldlM_cons, List.foldl_cons]
    have hassign : maskAssign m tolSq c = best_match pix tolSq := by
      unfold maskAssign
      rw [hpix]
    rw [hassign]
    simp only [hpix]
    cases hbm : best_match pix tolSq <;> simp [hbm, ih]

theorem count_cars_masking_ok (m : Mask) (tolSq : Int)
    (hh : 0 < m.rows.length) (hw : 0 < m.width) (centers : List Pt) :
    count_cars_masking m tolSq centers =
      .ok (centers.foldl (fun d c =>
        match maskAssign m tolSq c with
        | some l => dictIncr d l
        | none => d) initCounts) :=
  count_cars_masking_ok_aux m tolSq hh hw centers initCounts

/-- Folding an optional per-element assignment accumulates, at key k, the
number of elements assigned to k. -/
theorem dictGet_foldl_assign {α : Type} (assign : α → Option Lane) (elems : List α)
    (d : List (Lane × Int)) (k : Lane) :
    dictGet (elems.foldl (fun d c =>
        match assign c with
        | some l => dictIncr d l
        | none => d) d) k =
      (dictGet d k).map
        (fun v => v + (elems.countP (fun c => decide (assign c = some k)) : Int)) := by
  rw [dictGet_foldl_step (w := fun c => if assign c = some k then 1 else 0) (k := k)]
  · rw [sum_map_indicator_eq_countP]
  · intro d' c
    cases hc : assign c with
    | none => cases hd : dictGet d' k <;> simp [hd, hc]
    | some l =>
      by_cases hk : l = k
      · rw [hk, dictGet_dictIncr_self]
        cases hd : dictGet d' k <;> simp [hd, hc]
      · rw [dictGet_dictIncr_ne _ _ _ (fun he => hk he.symm)]
        cases hd : dictGet d' k <;> simp [hd, hc, hk]

/-- Count characterization of the color-mask strategy. -/
theorem masking_dictGet (m : Mask) (tolSq : Int)
    (hh : 0 < m.rows.length) (hw : 0 < m.width) (centers : List Pt) (k : Lane) :
    ∃ counts, count_cars_masking m tolSq centers = .ok counts ∧
      dictGet counts k =
        some ((centers.countP (fun c => decide (maskAssign m tolSq c = some k)) : Nat) : Int) := by
  refine ⟨_, count_cars_masking_ok m tolSq hh hw centers, ?_⟩
  rw [dictGet_foldl_assign, dictGet_initCounts]
  simp

/-- Count characterization of the static quadrant strategy of
traffic_processor.py: every box is counted (there is no class filter and
every centroid satisfies exactly one quadrant test). -/
theorem dictGet_process_frame (boxes : List PBox) (k : Lane) :
    dictGet (process_frame boxes) k =
      some ((boxes.countP (fun b =>
        decide (processor_lane ((b.x1 + b.x2) / 2) ((b.y1 + b.y2) / 2) = k)) : Nat) : Int) := by
  unfold process_frame
  rw [dictGet_foldl_step (w := fun b =>
    if processor_lane ((b.x1 + b.x2) / 2) ((b.y1 + b.y2) / 2) = k then 1 else 0) (k := k)]
  · rw [dictGet_initCounts, sum_map_indicator_eq_countP]
    simp
  · intro d b
    by_cases hk : processor_lane ((b.x1 + b.x2) / 2) ((b.y1 + b.y2) / 2) = k
    · rw [hk, dictGet_dictIncr_self]
      cases hd : dictGet d k <;> simp [hd, hk]
    · rw [dictGet_dictIncr_ne _ _ _ (fun he => hk he.symm)]
      cases hd : dictGet d k <;> simp [hd, hk]

/-- The effective assignment test of the corner-region strategy of
traffic.py: the region of lane k contains the centroid (inclusive bounds)
and the class is a vehicle class. -/
def regionHasCar (width height : Nat) (k : Lane) (det : TDet) : Bool :=
  match dictGet (regions width height) k with
  | some r =>
    decide (r.1.x ≤ (det.x1 + det.x2).fdiv 2 ∧ (det.x1 + det.x2).fdiv 2 ≤ r.2.x ∧
      r.1.y ≤ (det.y1 + det.y2).fdiv 2 ∧ (det.y1 + det.y2).fdiv 2 ≤ r.2.y ∧
      det.cls ∈ ([2, 3, 5, 7] : List Int))
  | none => false

theorem regions_keys (width height : Nat) :
    (regions width height).map Prod.fst = laneOrder := rfl

theorem regions_keys_nodup (width height : Nat) :
    ((regions width height).map Prod.fst).Nodup := by
  rw [regions_keys]
  decide

/-- Count characterization of the corner-region strategy of traffic.py. -/
theorem regions_dictGet (width height : Nat) (dets : List TDet) (k : Lane) :
    dictGet (count_cars_in_regions width height dets) k =
      some ((dets.countP (regionHasCar width height k) : Nat) : Int) := by
  unfold count_cars_in_regions
  rw [dictGet_foldl_step
    (w := fun det => if regionHasCar width height k det then 1 else 0) (k := k)]
  · rw [dictGet_initCounts, sum_map_indicator_eq_countP]
    simp
  · intro d det
    rw [dictGet_foldl_incrIf
        (fun r => r.2.1.x ≤ (det.x1 + det.x2).fdiv 2 ∧ (det.x1 + det.x2).fdiv 2 ≤ r.2.2.x ∧
          r.2.1.y ≤ (det.y1 + det.y2).fdiv 2 ∧ (det.y1 + det.y2).fdiv 2 ≤ r.2.2.y ∧
          det.cls ∈ ([2, 3, 5, 7] : List Int))
        (regions width height) d k,
      countP_entries_of_nodup _ (regions_keys_nodup width height) k]
    unfold regionHasCar
    cases hdg : dictGet (regions width height) k <;>
      cases hd : dictGet d k <;> simp [hdg, hd]

/-! ## Claim theorems -/

/-- C4: checksummed binary packet format.  For every CountRecord whose four
fetched counts lie in [0, 65536), with the port opening and the write
succeeding, send_serial_data writes exactly one start byte 0xAA, the four
counts as 16-bit little-endian unsigned integers in lane order North,
South, East, West, and one trailing checksum byte equal to the XOR of the
start byte and all eight count bytes. -/
theorem c4_checksummed_packet_format (env : SerialEnv) (lane_counts : List (Lane × Int))
    (n s e w : Int)
    (hn : (dictGet lane_counts Lane.north).getD 0 = n)
    (hs : (dictGet lane_counts Lane.south).getD 0 = s)
    (he : (dictGet lane_counts Lane.east).getD 0 = e)
    (hw : (dictGet lane_counts Lane.west).getD 0 = w)
    (hbn : 0 ≤ n ∧ n < 65536) (hbs : 0 ≤ s ∧ s < 65536)
    (hbe : 0 ≤ e ∧ e < 65536) (hbw : 0 ≤ w ∧ w < 65536)
    (hopen : env.openOk = true) (hwrite : env.writeOk = true) :
    (send_serial_data env lane_counts).written =
      some (0xAA :: ((le16 n ++ le16 s ++ le16 e ++ le16 w) ++
        [Nat.xor (Nat.xor (Nat.xor (Nat.xor (Nat.xor (Nat.xor (Nat.xor (Nat.xor 0xAA
          (n.toNat % 256)) (n.toNat / 256 % 256)) (s.toNat % 256)) (s.toNat / 256 % 256))
          (e.toNat % 256)) (e.toNat / 256 % 256)) (w.toNat % 256)) (w.toNat / 256 % 256)])) := by
  simp only [send_serial_data, pack4H]
  rw [hn, hs, he, hw, if_pos ⟨hbn.1, hbn.2, hbs.1, hbs.2, hbe.1, hbe.2, hbw.1, hbw.2⟩]
  simp only [hopen, hwrite, if_true]
  simp [le16, List.foldl]

/-- C4 witness: counts (1, 2, 3, 4) yield the bytes
AA 01 00 02 00 03 00 04 00 AE (AE being the stated XOR). -/
theorem c4_witness :
    (send_serial_data ⟨true, true⟩
        [(Lane.north, 1), (Lane.south, 2), (Lane.east, 3), (Lane.west, 4)]).written =
      some [0xAA, 0x01, 0x00, 0x02, 0x00, 0x03, 0x00, 0x04, 0x00, 0xAE] := by
  have h := c4_checksummed_packet_format ⟨true, true⟩
    [(Lane.north, 1), (Lane.south, 2), (Lane.east, 3), (Lane.west, 4)] 1 2 3 4
    (by decide) (by decide) (by decide) (by decide)
    (by decide) (by decide) (by decide) (by decide) rfl rfl
  rw [h]
  decide

theorem count_cars_markers_none (centers : List Pt) :
    count_cars_markers centers none = .error "No markers detected in the image" := rfl

/-- C7: detection absence is reported.  detect_markers fails exactly when
the detector returned no ids, and count_cars (the polygon-strategy frame
processing) fails exactly in the same case, rather than returning an empty
lane mapping. -/
theorem c7_detection_absence_reported (detected : Option (List Marker)) (centers : List Pt) :
    ((∃ err, detect_markers detected = .error err) ↔ detected = none) ∧
    ((∃ err, count_cars_markers centers detected = .error err) ↔ detected = none) := by
  cases detected with
  | none =>
    exact ⟨by simp [detect_markers], by simp [count_cars_markers_none centers]⟩
  | some ms =>
    refine ⟨?_, ?_⟩ <;> simp [detect_markers, count_cars_markers_ok centers ms]

/-- C10: implicit 16-bit bound of the checksummed sender.  A packet is
written only when all four counts are below 65536; when any count reaches
65536 the struct packing fails, the error branch runs, and no bytes at all
are written. -/
theorem c10_16bit_bound (env : SerialEnv) (lane_counts : List (Lane × Int)) :
    (∀ packet, (send_serial_data env lane_counts).written = some packet →
      ((dictGet lane_counts Lane.north).getD 0 < 65536 ∧
        (dictGet lane_counts Lane.south).getD 0 < 65536 ∧
        (dictGet lane_counts Lane.east).getD 0 < 65536 ∧
        (dictGet lane_counts Lane.west).getD 0 < 65536)) ∧
    ((65536 ≤ (dictGet lane_counts Lane.north).getD 0 ∨
        65536 ≤ (dictGet lane_counts Lane.south).getD 0 ∨
        65536 ≤ (dictGet lane_counts Lane.east).getD 0 ∨
        65536 ≤ (dictGet lane_counts Lane.west).getD 0) →
      (send_serial_data env lane_counts).written = none ∧
      (send_serial_data env lane_counts).errorPrinted = some "struct.error" ∧
      (send_serial_data env lane_counts).writeAttempts = 0) := by
  simp only [send_serial_data, pack4H]
  by_cases hcond : 0 ≤ (dictGet lane_counts Lane.north).getD 0 ∧
      (dictGet lane_counts Lane.north).getD 0 < 65536 ∧
      0 ≤ (dictGet lane_counts Lane.south).getD 0 ∧
      (dictGet lane_counts Lane.south).getD 0 < 65536 ∧
      0 ≤ (dictGet lane_counts Lane.east).getD 0 ∧
      (dictGet lane_counts Lane.east).getD 0 < 65536 ∧
      0 ≤ (dictGet lane_counts Lane.west).getD 0 ∧
      (dictGet lane_counts Lane.west).getD 0 < 65536
  · rw [if_pos hcond]
    constructor
    · intro packet _
      exact ⟨hcond.2.1, hcond.2.2.2.1, hcond.2.2.2.2.2.1, hcond.2.2.2.2.2.2.2⟩
    · intro hbig
      exfalso
      omega
  · rw [if_neg hcond]
    constructor
    · intro packet hp
      exact absurd hp (by simp)
    · intro _
      exact ⟨rfl, rfl, rfl⟩

/-- C10 witness: with the North count 70000 the sender takes the error
branch and writes nothing. -/
theorem c10_witness :
    (send_serial_data ⟨true, true⟩
        [(Lane.north, 70000), (Lane.south, 2), (Lane.east, 3), (Lane.west, 4)]).written = none ∧
      (send_serial_data ⟨true, true⟩
        [(Lane.north, 70000), (Lane.south, 2), (Lane.east, 3), (Lane.west, 4)]).errorPrinted =
        some "struct.error" ∧
      (send_serial_data ⟨true, true⟩
        [(Lane.north, 70000), (Lane.south, 2), (Lane.east, 3), (Lane.west, 4)]).writeAttempts = 0 :=
  (c10_16bit_bound ⟨true, true⟩ _).2 (by left; decide)

theorem length_filterMap_eq_countP {α β : Type} (f : α → Option β) (xs : List α) :
    (xs.filterMap f).length = xs.countP (fun x => (f x).isSome) := by
  induction xs with
  | nil => rfl
  | cons x r ih =>
    cases hf : f x <;> simp [List.filterMap_cons, hf, List.countP_cons, ih]

theorem find_isSome_eq_any {α : Type} (p : α → Bool) (l : List α) :
    (l.find? p).isSome = l.any p := by
  induction l with
  | nil => rfl
  | cons x r ih => by_cases h : p x <;> simp [List.find?_cons, h, ih]

/-- The number of corner points a lane resolves equals the number of the
lane's marker ids that occur among the detected markers. -/
theorem laneCorners_length (ms : List Marker) (k : Lane) :
    (laneCorners ms k).length =
      (laneMarkers k).countP (fun mid => ms.any (fun m => m.id == mid)) := by
  unfold laneCorners
  rw [length_filterMap_eq_countP]
  congr 1
  funext mid
  cases hf : ms.find? (fun m => m.id == mid) <;>
    simp [hf, ← find_isSome_eq_any]

/-- C6: lane polygon omission.  A lane has a polygon for the frame exactly
when at least three of its marker ids resolve to detected markers, and a
lane without a polygon keeps count zero for every centroid list. -/
theorem c6_polygon_omission (ms : List Marker) (k : Lane) (centers : List Pt) :
    ((∃ poly, dictGet (create_lane_polygons ms) k = some poly) ↔
      3 ≤ (laneMarkers k).countP (fun mid => ms.any (fun m => m.id == mid))) ∧
    (dictGet (create_lane_polygons ms) k = none →
      ∀ counts polys, count_cars_markers centers (some ms) = .ok (counts, polys) →
        dictGet counts k = some 0) := by
  constructor
  · rw [← laneCorners_length ms k]
    constructor
    · rintro ⟨poly, hpoly⟩
      have hne : dictGet (create_lane_polygons ms) k ≠ none := by simp [hpoly]
      have hk : k ∈ (create_lane_polygons ms).map Prod.fst := by
        by_contra hnk
        exact hne ((dictGet_eq_none_iff _ k).mpr hnk)
      rw [create_lane_polygons_keys] at hk
      have hmem := List.mem_filter.mp hk
      simpa using hmem.2
    · intro hlen
      have hk : k ∈ (create_lane_polygons ms).map Prod.fst := by
        rw [create_lane_polygons_keys]
        refine List.mem_filter.mpr ⟨?_, by simpa using hlen⟩
        cases k <;> decide
      cases hdg : dictGet (create_lane_polygons ms) k with
      | none => exact absurd ((dictGet_eq_none_iff _ k).mp hdg) (by simpa using hk)
      | some poly => exact ⟨poly, rfl⟩
  · intro hnone counts polys hok
    rw [count_cars_markers_ok] at hok
    simp only [Except.ok.injEq, Prod.mk.injEq] at hok
    obtain ⟨hc, hp⟩ := hok
    rw [← hc, markers_dictGet]
    have hzero : centers.countP (laneHasCar (create_lane_polygons ms) k) = 0 := by
      rw [List.countP_eq_zero]
      intro c _
      simp [laneHasCar, hnone]
    rw [hzero]
    simp

/-- A marker whose four corners coincide at the integer point (a, b); its
corner mean is exactly that point.  Used to build concrete detector
outputs. -/
def ptMarker (i a b : Int) : Marker :=
  ⟨i, [((a : Rat), (b : Rat)), ((a : Rat), (b : Rat)), ((a : Rat), (b : Rat)),
    ((a : Rat), (b : Rat))]⟩

theorem ratTrunc_intCast (n : Int) : ratTrunc ((n : Rat)) = n := by
  simp [ratTrunc, Rat.num_intCast, Rat.den_intCast]

theorem meanCorner_four (a b : Rat) :
    meanCorner [(a, b), (a, b), (a, b), (a, b)] = (a, b) := by
  unfold meanCorner
  simp only [List.map_cons, List.map_nil, List.sum_cons, List.sum_nil, List.length_cons,
    List.length_nil, Prod.mk.injEq]
  constructor <;> push_cast <;> ring

theorem laneCorners_ptMarkers (ms : List Marker) (l : Lane)
    (f : Int → Option (Int × Int × Int))
    (hf : ∀ mid ∈ laneMarkers l, ms.find? (fun m => m.id == mid) =
      (f mid).map (fun iab => ptMarker iab.1 iab.2.1 iab.2.2)) :
    laneCorners ms l = (laneMarkers l).filterMap
      (fun mid => (f mid).map (fun iab => (⟨iab.2.1, iab.2.2⟩ : Pt))) := by
  unfold laneCorners
  apply List.filterMap_congr
  intro mid hmid
  rw [hf mid hmid]
  cases hfm : f mid with
  | none => rfl
  | some iab =>
    obtain ⟨i, a, b⟩ := iab
    simp [ptMarker, meanCorner_four, ratTrunc_intCast]

/-- Concrete marker set for the C6 witness: only the North lane resolves
three marker centers. -/
def c6Markers : List Marker :=
  [ptMarker 0 0 0, ptMarker 1 8 0, ptMarker 2 0 8]

/-- C6 witness: with markers 0, 1, 2 detected, North (three resolved ids)
has a polygon, East (zero resolved ids) has none and its count stays 0. -/
theorem c6_witness :
    (∃ poly, dictGet (create_lane_polygons c6Markers) Lane.north = some poly) ∧
    dictGet ((count_cars_markers [⟨1, 1⟩] (some c6Markers)).toOption.getD
      (initCounts, [])).1 Lane.east = some 0 := by
  constructor
  · exact (c6_polygon_omission c6Markers Lane.north []).1.mpr (by decide)
  · exact (c6_polygon_omission c6Markers Lane.east [⟨1, 1⟩]).2 (by decide) _ _ rfl

/-- C8: CountRecord completeness invariant.  Under the polygon, color-mask
and static quadrant strategies the produced record has an entry for every
lane, every entry is non-negative, and a lane to which no centroid was
assigned has count zero. -/
theorem c8_countrecord_invariant
    (centers : List Pt) (ms : List Marker) (counts : List (Lane × Int))
    (polys : List (Lane × List Pt))
    (hok : count_cars_markers centers (some ms) = .ok (counts, polys))
    (m : Mask) (tolSq : Int) (hh : 0 < m.rows.length) (hw : 0 < m.width)
    (mcenters : List Pt) (mcounts : List (Lane × Int))
    (hmok : count_cars_masking m tolSq mcenters = .ok mcounts)
    (boxes : List PBox) (k : Lane) :
    (∃ n : Int, dictGet counts k = some n ∧ 0 ≤ n ∧
      ((∀ c ∈ centers, laneHasCar (create_lane_polygons ms) k c = false) → n = 0)) ∧
    (∃ n : Int, dictGet mcounts k = some n ∧ 0 ≤ n ∧
      ((∀ c ∈ mcenters, ¬maskAssign m tolSq c = some k) → n = 0)) ∧
    (∃ n : Int, dictGet (process_frame boxes) k = some n ∧ 0 ≤ n ∧
      ((∀ b ∈ boxes, ¬processor_lane ((b.x1 + b.x2) / 2) ((b.y1 + b.y2) / 2) = k) → n = 0)) := by
  refine ⟨?_, ?_, ?_⟩
  · rw [count_cars_markers_ok] at hok
    simp only [Except.ok.injEq, Prod.mk.injEq] at hok
    obtain ⟨hc, hp⟩ := hok
    have hget := markers_dictGet centers ms k
    rw [hc] at hget
    refine ⟨_, hget, by positivity, ?_⟩
    intro hall
    have hzero : centers.countP (laneHasCar (create_lane_polygons ms) k) = 0 := by
      rw [List.countP_eq_zero]
      intro c hcmem
      simp [hall c hcmem]
    rw [hzero]
    simp
  · obtain ⟨counts0, hok0, hget0⟩ := masking_dictGet m tolSq hh hw mcenters k
    rw [hmok] at hok0
    simp only [Except.ok.injEq] at hok0
    rw [← hok0] at hget0
    refine ⟨_, hget0, by positivity, ?_⟩
    intro hall
    have hzero : mcenters.countP (fun c => decide (maskAssign m tolSq c = some k)) = 0 := by
      rw [List.countP_eq_zero]
      intro c hcmem
      simp [hall c hcmem]
    rw [hzero]
    simp
  · refine ⟨_, dictGet_process_frame boxes k, by positivity, ?_⟩
    intro hall
    have hzero : boxes.countP (fun b =>
        decide (processor_lane ((b.x1 + b.x2) / 2) ((b.y1 + b.y2) / 2) = k)) = 0 := by
      rw [List.countP_eq_zero]
      intro b hbmem
      simp [hall b hbmem]
    rw [hzero]
    simp

/-- C8 witness: the invariant instantiated on empty inputs with a 1 by 1
mask; every lane entry is present with a non-negative count. -/
theorem c8_witness :
    ∃ n : Int, dictGet initCounts Lane.north = some n ∧ 0 ≤ n := by
  obtain ⟨n, h1, h2, _⟩ := (c8_countrecord_invariant [] [] initCounts [] rfl
    ⟨1, [[(0, 0, 0)]], by decide⟩ 400 (by decide) (by decide) [] initCounts rfl
    [] Lane.north).1
  exact ⟨n, h1, h2⟩

theorem bestStep_none (pix : Color) (t : Int) (lc : Lane × Color) :
    bestStep pix t none lc =
      if distSq pix lc.2 ≤ t then some (lc.1, distSq pix lc.2) else none := rfl

theorem bestStep_some (pix : Color) (t : Int) (bl : Lane) (bd : Int) (lc : Lane × Color) :
    bestStep pix t (some (bl, bd)) lc =
      if distSq pix lc.2 < bd ∧ distSq pix lc.2 ≤ t then
        some (lc.1, distSq pix lc.2)
      else some (bl, bd) := rfl

/-- Full closed characterization of the best-match loop over the four lane
colors: the assigned lane is within tolerance and of minimal distance, a
tie going to the earlier lane in iteration order; no lane within tolerance
gives none. -/
theorem best_match_spec (pix : Color) (tolSq : Int) :
    (best_match pix tolSq = some Lane.north ↔
      distSq pix (255, 0, 0) ≤ tolSq ∧
      distSq pix (255, 0, 0) ≤ distSq pix (0, 255, 0) ∧
      distSq pix (255, 0, 0) ≤ distSq pix (0, 0, 255) ∧
      distSq pix (255, 0, 0) ≤ distSq pix (255, 255, 0)) ∧
    (best_match pix tolSq = some Lane.south ↔
      distSq pix (0, 255, 0) ≤ tolSq ∧
      distSq pix (0, 255, 0) < distSq pix (255, 0, 0) ∧
      distSq pix (0, 255, 0) ≤ distSq pix (0, 0, 255) ∧
      distSq pix (0, 255, 0) ≤ distSq pix (255, 255, 0)) ∧
    (best_match pix tolSq = some Lane.east ↔
      distSq pix (0, 0, 255) ≤ tolSq ∧
      distSq pix (0, 0, 255) < distSq pix (255, 0, 0) ∧
      distSq pix (0, 0, 255) < distSq pix (0, 255, 0) ∧
      distSq pix (0, 0, 255) ≤ distSq pix (255, 255, 0)) ∧
    (best_match pix tolSq = some Lane.west ↔
      distSq pix (255, 255, 0) ≤ tolSq ∧
      distSq pix (255, 255, 0) < distSq pix (255, 0, 0) ∧
      distSq pix (255, 255, 0) < distSq pix (0, 255, 0) ∧
      distSq pix (255, 255, 0) < distSq pix (0, 0, 255)) ∧
    (best_match pix tolSq = none ↔
      tolSq < distSq pix (255, 0, 0) ∧ tolSq < distSq pix (0, 255, 0) ∧
      tolSq < distSq pix (0, 0, 255) ∧ tolSq < distSq pix (255, 255, 0)) := by
  have hfold : best_match pix tolSq =
      (bestStep pix tolSq (bestStep pix tolSq (bestStep pix tolSq (bestStep pix tolSq none
        (Lane.north, (255, 0, 0))) (Lane.south, (0, 255, 0))) (Lane.east, (0, 0, 255)))
        (Lane.west, (255, 255, 0))).map Prod.fst := rfl
  rw [hfold, bestStep_none]
  by_cases h1 : distSq pix (255, 0, 0) ≤ tolSq
  · rw [if_pos h1, bestStep_some]
    by_cases h2 : distSq pix (0, 255, 0) < distSq pix (255, 0, 0) ∧ distSq pix (0, 255, 0) ≤ tolSq
    · rw [if_pos h2, bestStep_some]
      by_cases h3 : distSq pix (0, 0, 255) < distSq pix (0, 255, 0) ∧ distSq pix (0, 0, 255) ≤ tolSq
      · rw [if_pos h3, bestStep_some]
        by_cases h4 : distSq pix (255, 255, 0) < distSq pix (0, 0, 255) ∧ distSq pix (255, 255, 0) ≤ tolSq
        · rw [if_pos h4]
          refine ⟨?_, ?_, ?_, ?_, ?_⟩ <;>
          simp only [Option.map_some', Option.map_none', Option.some.injEq, reduceCtorEq,
            false_iff, true_iff, eq_self_iff_true] <;> omega
        · rw [if_neg h4]
          refine ⟨?_, ?_, ?_, ?_, ?_⟩ <;>
          simp only [Option.map_some', Option.map_none', Option.some.injEq, reduceCtorEq,
            false_iff, true_iff, eq_self_iff_true] <;> omega
      · rw [if_neg h3, bestStep_some]
        by_cases h4 : distSq pix (255, 255, 0) < distSq pix (0, 255, 0) ∧ distSq pix (255, 255, 0) ≤ tolSq
        · rw [if_pos h4]
          refine ⟨?_, ?_, ?_, ?_, ?_⟩ <;>
          simp only [Option.map_some', Option.map_none', Option.some.injEq, reduceCtorEq,
            false_iff, true_iff, eq_self_iff_true] <;> omega
        · rw [if_neg h4]
          refine ⟨?_, ?_, ?_, ?_, ?_⟩ <;>
          simp only [Option.map_some', Option.map_none', Option.some.injEq, reduceCtorEq,
            false_iff, true_iff, eq_self_iff_true] <;> omega
    · rw [if_neg h2, bestStep_some]
      by_cases h3 : distSq pix (0, 0, 255) < distSq pix (255, 0, 0) ∧ distSq pix (0, 0, 255) ≤ tolSq
      · rw [if_pos h3, bestStep_some]
        by_cases h4 : distSq pix (255, 255, 0) < distSq pix (0, 0, 255) ∧ distSq pix (255, 255, 0) ≤ tolSq
        · rw [if_pos h4]
          refine ⟨?_, ?_, ?_, ?_, ?_⟩ <;>
          simp only [Option.map_some', Option.map_none', Option.some.injEq, reduceCtorEq,
            false_iff, true_iff, eq_self_iff_true] <;> omega
        · rw [if_neg h4]
          refine ⟨?_, ?_, ?_, ?_, ?_⟩ <;>
          simp only [Option.map_some', Option.map_none', Option.some.injEq, reduceCtorEq,
            false_iff, true_iff, eq_self_iff_true] <;> omega
      · rw [if_neg h3, bestStep_some]
        by_cases h4 : distSq pix (255, 255, 0) < distSq pix (255, 0, 0) ∧ distSq pix (255, 255, 0) ≤ tolSq
        · rw [if_pos h4]
          refine ⟨?_, ?_, ?_, ?_, ?_⟩ <;>
          simp only [Option.map_some', Option.map_none', Option.some.injEq, reduceCtorEq,
            false_iff, true_iff, eq_self_iff_true] <;> omega
        · rw [if_neg h4]
          refine ⟨?_, ?_, ?_, ?_, ?_⟩ <;>
          simp only [Option.map_some', Option.map_none', Option.some.injEq, reduceCtorEq,
            false_iff, true_iff, eq_self_iff_true] <;> omega
  · rw [if_neg h1, bestStep_none]
    by_cases h2 : distSq pix (0, 255, 0) ≤ tolSq
    · rw [if_pos h2, bestStep_some]
      by_cases h3 : distSq pix (0, 0, 255) < distSq pix (0, 255, 0) ∧ distSq pix (0, 0, 255) ≤ tolSq
      · rw [if_pos h3, bestStep_some]
        by_cases h4 : distSq pix (255, 255, 0) < distSq pix (0, 0, 255) ∧ distSq pix (255, 255, 0) ≤ tolSq
        · rw [if_pos h4]
          refine ⟨?_, ?_, ?_, ?_, ?_⟩ <;>
          simp only [Option.map_some', Option.map_none', Option.some.injEq, reduceCtorEq,
            false_iff, true_iff, eq_self_iff_true] <;> omega
        · rw [if_neg h4]
          refine ⟨?_, ?_, ?_, ?_, ?_⟩ <;>
          simp only [Option.map_some', Option.map_none', Option.some.injEq, reduceCtorEq,
            false_iff, true_iff, eq_self_iff_true] <;> omega
      · rw [if_neg h3, bestStep_some]
        by_cases h4 : distSq pix (255, 255, 0) < distSq pix (0, 255, 0) ∧ distSq pix (255, 255, 0) ≤ tolSq
        · rw [if_pos h4]
          refine ⟨?_, ?_, ?_, ?_, ?_⟩ <;>
          simp only [Option.map_some', Option.map_none', Option.some.injEq, reduceCtorEq,
            false_iff, true_iff, eq_self_iff_true] <;> omega
        · rw [if_neg h4]
          refine ⟨?_, ?_, ?_, ?_, ?_⟩ <;>
          simp only [Option.map_some', Option.map_none', Option.some.injEq, reduceCtorEq,
            false_iff, true_iff, eq_self_iff_true] <;> omega
    · rw [if_neg h2, bestStep_none]
      by_cases h3 : distSq pix (0, 0, 255) ≤ tolSq
      · rw [if_pos h3, bestStep_some]
        by_cases h4 : distSq pix (255, 255, 0) < distSq pix (0, 0, 255) ∧ distSq pix (255, 255, 0) ≤ tolSq
        · rw [if_pos h4]
          refine ⟨?_, ?_, ?_, ?_, ?_⟩ <;>
          simp only [Option.map_some', Option.map_none', Option.some.injEq, reduceCtorEq,
            false_iff, true_iff, eq_self_iff_true] <;> omega
        · rw [if_neg h4]
          refine ⟨?_, ?_, ?_, ?_, ?_⟩ <;>
          simp only [Option.map_some', Option.map_none', Option.some.injEq, reduceCtorEq,
            false_iff, true_iff, eq_self_iff_true] <;> omega
      · rw [if_neg h3, bestStep_none]
        by_cases h4 : distSq pix (255, 255, 0) ≤ tolSq
        · rw [if_pos h4]
          refine ⟨?_, ?_, ?_, ?_, ?_⟩ <;>
          simp only [Option.map_some', Option.map_none', Option.some.injEq, reduceCtorEq,
            false_iff, true_iff, eq_self_iff_true] <;> omega
        · rw [if_neg h4]
          refine ⟨?_, ?_, ?_, ?_, ?_⟩ <;>
          simp only [Option.map_some', Option.map_none', Option.some.injEq, reduceCtorEq,
            false_iff, true_iff, eq_self_iff_true] <;> omega

/-- C5: color-mask strategy assignment.  The assigned lane is the lane
whose reference color is within tolerance (squared comparison) of the mask
pixel and of minimal distance among all lanes, ties broken by the first
such lane in iteration order North, South, East, West (strict inequality
against earlier lanes, non-strict against later ones); when no lane is
within tolerance the centroid is unassigned, and count_cars counts for
each lane exactly the centroids assigned to it; a pixel exactly equal to a
lane reference color is always assigned that lane for any tolerance with
non-negative square. -/
theorem c5_color_mask_assignment (pix : Color) (tolSq : Int) (m : Mask) (centers : List Pt)
    (k : Lane) (hh : 0 < m.rows.length) (hw : 0 < m.width) (htol : 0 ≤ tolSq) :
    (best_match pix tolSq = some Lane.north ↔
      distSq pix (255, 0, 0) ≤ tolSq ∧
      distSq pix (255, 0, 0) ≤ distSq pix (0, 255, 0) ∧
      distSq pix (255, 0, 0) ≤ distSq pix (0, 0, 255) ∧
      distSq pix (255, 0, 0) ≤ distSq pix (255, 255, 0)) ∧
    (best_match pix tolSq = some Lane.south ↔
      distSq pix (0, 255, 0) ≤ tolSq ∧
      distSq pix (0, 255, 0) < distSq pix (255, 0, 0) ∧
      distSq pix (0, 255, 0) ≤ distSq pix (0, 0, 255) ∧
      distSq pix (0, 255, 0) ≤ distSq pix (255, 255, 0)) ∧
    (best_match pix tolSq = some Lane.east ↔
      distSq pix (0, 0, 255) ≤ tolSq ∧
      distSq pix (0, 0, 255) < distSq pix (255, 0, 0) ∧
      distSq pix (0, 0, 255) < distSq pix (0, 255, 0) ∧
      distSq pix (0, 0, 255) ≤ distSq pix (255, 255, 0)) ∧
    (best_match pix tolSq = some Lane.west ↔
      distSq pix (255, 255, 0) ≤ tolSq ∧
      distSq pix (255, 255, 0) < distSq pix (255, 0, 0) ∧
      distSq pix (255, 255, 0) < distSq pix (0, 255, 0) ∧
      distSq pix (255, 255, 0) < distSq pix (0, 0, 255)) ∧
    (best_match pix tolSq = none ↔
      tolSq < distSq pix (255, 0, 0) ∧ tolSq < distSq pix (0, 255, 0) ∧
      tolSq < distSq pix (0, 0, 255) ∧ tolSq < distSq pix (255, 255, 0)) ∧
    ((pix = (255, 0, 0) → best_match pix tolSq = some Lane.north) ∧
      (pix = (0, 255, 0) → best_match pix tolSq = some Lane.south) ∧
      (pix = (0, 0, 255) → best_match pix tolSq = some Lane.east) ∧
      (pix = (255, 255, 0) → best_match pix tolSq = some Lane.west)) ∧
    (∃ counts, count_cars_masking m tolSq centers = .ok counts ∧
      dictGet counts k = some
        ((centers.countP (fun c => decide (maskAssign m tolSq c = some k)) : Nat) : Int)) := by
  obtain ⟨hN, hS, hE, hW, hnone⟩ := best_match_spec pix tolSq
  refine ⟨hN, hS, hE, hW, hnone, ⟨?_, ?_, ?_, ?_⟩, masking_dictGet m tolSq hh hw centers k⟩
  · intro hpix
    subst hpix
    exact hN.mpr ⟨by simpa [distSq] using htol, by decide, by decide, by decide⟩
  · intro hpix
    subst hpix
    exact hS.mpr ⟨by simpa [distSq] using htol, by decide, by decide, by decide⟩
  · intro hpix
    subst hpix
    exact hE.mpr ⟨by simpa [distSq] using htol, by decide, by decide, by decide⟩
  · intro hpix
    subst hpix
    exact hW.mpr ⟨by simpa [distSq] using htol, by decide, by decide, by decide⟩

/-- C5 witness: on a 1 by 1 mask whose pixel is exactly the North
reference color, the single centroid is assigned North and counted once,
with tolerance 20 squared. -/
theorem c5_witness :
    best_match (255, 0, 0) 400 = some Lane.north ∧
    ∃ counts, count_cars_masking ⟨1, [[(255, 0, 0)]], by decide⟩ 400 [⟨0, 0⟩] = .ok counts ∧
      dictGet counts Lane.north = some 1 := by
  have h := c5_color_mask_assignment (255, 0, 0) 400 ⟨1, [[(255, 0, 0)]], by decide⟩ [⟨0, 0⟩]
    Lane.north (by decide) (by decide) (by decide)
  refine ⟨h.2.2.2.2.2.1.1 rfl, ?_⟩
  obtain ⟨counts, hok, hget⟩ := h.2.2.2.2.2.2
  exact ⟨counts, hok, hget.trans (by decide)⟩

/-- Concrete marker detections for the C1 counterexample: North and South
both resolve the same triangle (markers 0, 1, 2 and 4, 5, 6 at identical
centers), so their polygons coincide and overlap completely. -/
def c1Markers : List Marker :=
  [ptMarker 0 0 0, ptMarker 1 10 0, ptMarker 2 0 10,
    ptMarker 4 0 0, ptMarker 5 10 0, ptMarker 6 0 10]

/-- The lane polygons the overlapping configuration produces: identical
North and South triangles, nothing for East and West. -/
theorem c1_polys : create_lane_polygons c1Markers =
    [(Lane.north, [⟨0, 0⟩, ⟨10, 0⟩, ⟨0, 10⟩]),
      (Lane.south, [⟨0, 0⟩, ⟨10, 0⟩, ⟨0, 10⟩])] := by
  have hN : laneCorners c1Markers Lane.north = [⟨0, 0⟩, ⟨10, 0⟩, ⟨0, 10⟩] := by
    rw [laneCorners_ptMarkers c1Markers Lane.north
      (fun mid => if mid = 0 then some (0, 0, 0) else if mid = 1 then some (1, 10, 0)
        else if mid = 2 then some (2, 0, 10) else none) (by decide)]
    rfl
  have hS : laneCorners c1Markers Lane.south = [⟨0, 0⟩, ⟨10, 0⟩, ⟨0, 10⟩] := by
    rw [laneCorners_ptMarkers c1Markers Lane.south
      (fun mid => if mid = 4 then some (4, 0, 0) else if mid = 5 then some (5, 10, 0)
        else if mid = 6 then some (6, 0, 10) else none) (by decide)]
    rfl
  have hE : laneCorners c1Markers Lane.east = [] := rfl
  have hW : laneCorners c1Markers Lane.west = [] := rfl
  simp [create_lane_polygons, laneOrder, hN, hS, hE, hW]

/-- C1 counterexample: with overlapping North and South polygons the single
centroid (2, 2) increments BOTH lane counts in one frame — the polygon loop
does not stop at the first containing polygon and a multi-match centroid is
not treated as unassigned, so it is double-counted across overlapping
lanes. -/
theorem c1_counterexample :
    (count_cars_markers [⟨2, 2⟩] (some c1Markers)).toOption.map
      (fun p => (dictGet p.1 Lane.north, dictGet p.1 Lane.south)) =
      some (some 1, some 1) := by
  rw [count_cars_markers_ok, c1_polys]
  decide

/-- C1 amended: the aggregation increments, for every centroid, the count
of every lane whose polygon contains it (exactly once per such lane),
scanning all lane polygons without stopping at the first match; a centroid
inside no polygon increments nothing, and a centroid inside several
overlapping polygons is counted once in each of them. -/
theorem c1_amended (centers : List Pt) (ms : List Marker)
    (counts : List (Lane × Int)) (polys : List (Lane × List Pt)) (k : Lane)
    (hok : count_cars_markers centers (some ms) = .ok (counts, polys)) :
    polys = create_lane_polygons ms ∧
    dictGet counts k = some ((centers.countP (laneHasCar polys k) : Nat) : Int) := by
  rw [count_cars_markers_ok] at hok
  simp only [Except.ok.injEq, Prod.mk.injEq] at hok
  obtain ⟨hc, hp⟩ := hok
  subst hp
  refine ⟨rfl, ?_⟩
  rw [← hc, markers_dictGet]

/-- C1 amended witness: the amended count law evaluated on the overlapping
configuration. -/
theorem c1_amended_witness :
    ∃ counts polys, count_cars_markers [⟨2, 2⟩] (some c1Markers) = .ok (counts, polys) ∧
      dictGet counts Lane.north =
        some ((([⟨2, 2⟩] : List Pt).countP (laneHasCar polys Lane.north) : Nat) : Int) := by
  refine ⟨_, _, rfl, ?_⟩
  exact (c1_amended [⟨2, 2⟩] c1Markers _ _ Lane.north rfl).2

/-- C2 counterexample: with the serial port failing, the masking sender
swallows the failure — nothing is raised to the caller, the error is only
printed and the function returns normally; and in the processor a write
failure escapes send_counts uncaught and aborts the run loop before the
second frame, refuting both halves of the claim (explicit failure signal
to the caller AND no crash of the frame-processing loop). -/
theorem c2_counterexample :
    (send_serial_data ⟨false, false⟩ initCounts).raised = false ∧
    (send_serial_data ⟨false, false⟩ initCounts).errorPrinted = some "could not open port" ∧
    run_loop ⟨true, false⟩ [some [], some []] = .error "serial write failed" :=
  ⟨rfl, rfl, rfl⟩

/-- C2 amended: in traffic_masking the sender catches every failure inside
itself — nothing is ever raised to the caller (the failure is only
printed) and at most one write is attempted per frame (no retry); in
traffic_processor a write failure propagates to the caller uncaught and
aborts the processing loop (remaining frames are not processed). -/
theorem c2_amended (env : SerialEnv) (lane_counts : List (Lane × Int))
    (frames : List (Option (List PBox))) (boxes : List PBox)
    (hwfail : env.writeOk = false) :
    (send_serial_data env lane_counts).raised = false ∧
    (send_serial_data env lane_counts).writeAttempts ≤ 1 ∧
    run_loop env (some boxes :: frames) = .error "serial write failed" := by
  refine ⟨?_, ?_, ?_⟩
  · simp only [send_serial_data]
    split
    · rfl
    · split_ifs <;> rfl
  · simp only [send_serial_data]
    split
    · simp
    · split_ifs <;> simp
  · have h1 := dictGet_process_frame boxes Lane.north
    have h2 := dictGet_process_frame boxes Lane.south
    have h3 := dictGet_process_frame boxes Lane.east
    have h4 := dictGet_process_frame boxes Lane.west
    simp only [run_loop, List.foldlM_cons, run_frame, send_counts, h1, h2, h3, h4, hwfail]
    rfl

/-- C2 amended witness: the amended failure semantics evaluated with a
failing write, empty counts and one subsequent frame. -/
theorem c2_amended_witness :
    (send_serial_data ⟨true, false⟩ initCounts).raised = false ∧
    (send_serial_data ⟨true, false⟩ initCounts).writeAttempts ≤ 1 ∧
    run_loop ⟨true, false⟩ (some [] :: [some []]) = .error "serial write failed" :=
  c2_amended ⟨true, false⟩ initCounts [some []] [] rfl

/-- C3 counterexample: in traffic.py the regions are four quarter-size
corner rectangles, not midline quadrants; for a 640 by 480 frame a
detection centered at (3W/4, 3H/4) = (480, 360) is counted in the East
(bottom-right corner) region while South stays 0, contradicting the
claimed South assignment. -/
theorem c3_counterexample :
    dictGet (count_cars_in_regions 640 480 [⟨470, 350, 490, 370, 2⟩]) Lane.south = some 0 ∧
    dictGet (count_cars_in_regions 640 480 [⟨470, 350, 490, 370, 2⟩]) Lane.east = some 1 := by
  decide

/-- C3 amended: traffic_processor splits at the fixed thresholds x = 320
and y = 240 (the midlines of its 640 by 480 camera frames, not of an
arbitrary frame): for that frame size (W/4, H/4) = (160, 120) is West and
(3W/4, 3H/4) = (480, 360) is South; traffic.py instead uses four quarter
corner rectangles, in which (W/4, H/4) = (160, 120) lands in the West
(top-left) box but (3W/4, 3H/4) = (480, 360) lands in the East
(bottom-right) box. -/
theorem c3_amended (x y : Rat) :
    (processor_lane x y = Lane.west ↔ x < 320 ∧ y < 240) ∧
    (processor_lane x y = Lane.north ↔ x < 320 ∧ ¬y < 240) ∧
    (processor_lane x y = Lane.east ↔ ¬x < 320 ∧ y < 240) ∧
    (processor_lane x y = Lane.south ↔ ¬x < 320 ∧ ¬y < 240) ∧
    processor_lane 160 120 = Lane.west ∧
    processor_lane 480 360 = Lane.south ∧
    dictGet (count_cars_in_regions 640 480 [⟨155, 115, 165, 125, 2⟩]) Lane.west = some 1 ∧
    dictGet (count_cars_in_regions 640 480 [⟨475, 355, 485, 365, 2⟩]) Lane.east = some 1 := by
  refine ⟨?_, ?_, ?_, ?_, by decide, by decide, by decide, by decide⟩ <;>
    (unfold processor_lane; split_ifs <;> simp_all)

/-- Concrete marker detections for the C9 counterexample: the North
polygon lies entirely at negative coordinates. -/
def c9Markers : List Marker :=
  [ptMarker 0 (-16) (-16), ptMarker 1 (-14) (-16), ptMarker 2 (-15) (-13)]

/-- The single, all-negative North polygon of the C9 configuration. -/
theorem c9_polys : create_lane_polygons c9Markers =
    [(Lane.north, [⟨-16, -16⟩, ⟨-14, -16⟩, ⟨-15, -13⟩])] := by
  have hN : laneCorners c9Markers Lane.north = [⟨-16, -16⟩, ⟨-14, -16⟩, ⟨-15, -13⟩] := by
    rw [laneCorners_ptMarkers c9Markers Lane.north
      (fun mid => if mid = 0 then some (0, -16, -16) else if mid = 1 then some (1, -14, -16)
        else if mid = 2 then some (2, -15, -13) else none) (by decide)]
    rfl
  have hS : laneCorners c9Markers Lane.south = [] := rfl
  have hE : laneCorners c9Markers Lane.east = [] := rfl
  have hW : laneCorners c9Markers Lane.west = [] := rfl
  simp [create_lane_polygons, laneOrder, hN, hS, hE, hW]

/-- C9 counterexample: the markers pipeline computes centroids with no
clamping at all — the box at (-20, -20) yields centroid (-15, -15),
outside every frame, and exactly that raw point is what the polygon
containment test receives: the all-negative North polygon counts it,
which no coordinate clamped into the frame could have matched. -/
theorem c9_counterexample :
    run_centers_markers [(-20, -20, 10, 10)] = [⟨-15, -15⟩] ∧
    ((-15 : Int) < 0) ∧
    (count_cars_markers (run_centers_markers [(-20, -20, 10, 10)])
        (some c9Markers)).toOption.map (fun p => dictGet p.1 Lane.north) =
      some (some 1) := by
  rw [count_cars_markers_ok, c9_polys]
  decide

/-- C9 amended: only the color-mask strategy clamps centroid coordinates
(x into [0, w-1], y into [0, h-1]) before its lookup — and it is the only
strategy that indexes pixels, so its mask access always succeeds and
count_cars never hits an out-of-bounds pixel; the polygon and quadrant
strategies pass centroids unclamped but perform no pixel indexing. -/
theorem c9_amended (m : Mask) (tolSq : Int) (centers : List Pt)
    (hh : 0 < m.rows.length) (hw : 0 < m.width) :
    (∀ x : Int, 0 ≤ clip x 0 ((m.width : Int) - 1) ∧
      clip x 0 ((m.width : Int) - 1) ≤ (m.width : Int) - 1) ∧
    (∀ y : Int, 0 ≤ clip y 0 ((m.rows.length : Int) - 1) ∧
      clip y 0 ((m.rows.length : Int) - 1) ≤ (m.rows.length : Int) - 1) ∧
    (∀ cx cy : Int, ∃ pix, maskPixel m (clip cy 0 ((m.rows.length : Int) - 1))
      (clip cx 0 ((m.width : Int) - 1)) = some pix) ∧
    (∃ counts, count_cars_masking m tolSq centers = .ok counts) :=
  ⟨fun x => clip_mem x 0 _ (by omega), fun y => clip_mem y 0 _ (by omega),
    fun cx cy => maskPixel_clip_some m hh hw cx cy,
    ⟨_, count_cars_masking_ok m tolSq hh hw centers⟩⟩

/-- C9 amended witness: a far out-of-frame centroid is processed without
any out-of-bounds access on a 1 by 1 mask. -/
theorem c9_witness :
    ∃ counts, count_cars_masking ⟨1, [[(0, 0, 0)]], by decide⟩ 400 [⟨-50, 700⟩] = .ok counts :=
  (c9_amended ⟨1, [[(0, 0, 0)]], by decide⟩ 400 [⟨-50, 700⟩] (by decide) (by decide)).2.2.2

end TransitIQ

